import Mathlib

/-!
Verification of the SoundSense backend ingestion-storage-distribution pipeline.

Shallow embedding of:
  * `src/backend/src/domain/models.rs` (SignalCode, SensorReading, validate)
  * `src/backend/src/fhir.rs`          (FhirObservation, from_reading, validate)
  * `src/backend/src/audit.rs`         (AuditLogEntry and its builders)
  * `src/backend/src/domain/store.rs`  (AppState, push, recent_observations)
  * `src/backend/src/routes.rs`        (the ingest handlers' control flow)

Modelling conventions:
  * Rust `f64` values are modelled by `F64`: a finite payload (a rational) or
    one of the non-finite IEEE values NaN, +inf, -inf.  The code never performs
    arithmetic on reading values; it only copies them and tests `is_finite`.
  * `Uuid::new_v4()` draws are modelled by explicit `String` parameters
    (`freshId`, or an `ids : Nat -> String` supply for query paths, consumed
    in call order).  `Uuid::parse_str` is modelled by `isUuidFormat`, the
    hyphenated 8-4-4-4-12 format that every `Uuid::new_v4().to_string()`
    produces (`parse_str` accepts at least this format).
  * Database and audit writes are external I/O; their outcomes are passed in
    as explicit oracle parameters (`insertRes`, `auditOk`, `dbQueryRes`).
  * Rust `s.trim().is_empty()` is modelled by `trimIsEmpty`: true iff every
    character of the string is whitespace, which is exactly when trimming
    leaves the empty string.
  * Timestamps (`DateTime<Utc>`) are opaque to the pipeline; modelled as `Int`.
-/

namespace SoundSense

/-- Model of a Rust `f64`: a finite numeric payload, or NaN, or an infinity. -/
inductive F64 where
  | finite (q : ℚ)
  | nan
  | posInf
  | negInf
deriving DecidableEq, Repr

/-- Rust `f64::is_finite`. -/
def F64.isFinite : F64 → Bool
  | .finite _ => true
  | _ => false

/-- Rust `s.trim().is_empty()`: trimming leaves nothing iff every char is whitespace. -/
def trimIsEmpty (s : String) : Bool := s.data.all Char.isWhitespace

/-- Rust `String::is_empty`. -/
def strIsEmpty (s : String) : Bool := s.data.isEmpty

/-- Rust `str::contains(char)`. -/
def strContains (s : String) (c : Char) : Bool := s.data.contains c

/-- Helper for `strStarts`: list-level "begins with" test. -/
def startsList : List Char → List Char → Bool
  | [], _ => true
  | _ :: _, [] => false
  | p :: ps, c :: cs => p = c && startsList ps cs

/-- Rust `str::starts_with(pat)`. -/
def strStarts (s pat : String) : Bool := startsList pat.data s.data

/-- Hex-digit test used by the UUID format check. -/
def isHexDigit (c : Char) : Bool :=
  ('0' ≤ c && c ≤ '9') || ('a' ≤ c && c ≤ 'f') || ('A' ≤ c && c ≤ 'F')

/-- Helper for `isUuidFormat`: checks chars from position `i`, requiring
hyphens at positions 8, 13, 18, 23, hex digits elsewhere, total length 36. -/
def uuidCharsOk : Nat → List Char → Bool
  | i, [] => decide (i = 36)
  | i, c :: cs =>
      (if i = 8 || i = 13 || i = 18 || i = 23 then c = '-' else isHexDigit c)
        && uuidCharsOk (i + 1) cs

/-- Model of `Uuid::parse_str` succeeding: the hyphenated 8-4-4-4-12 format,
which is the format of every id the pipeline generates via `new_v4().to_string()`. -/
def isUuidFormat (s : String) : Bool := uuidCharsOk 0 s.data

/-- `SignalCode` from `domain/models.rs`: a closed enumeration with the single
member `Sound`, serialized as `"sound"`. -/
inductive SignalCode where
  | sound
deriving DecidableEq, Repr

/-- Deserialization of `SignalCode` per its serde attributes: the rename
`"sound"` plus the aliases `"SoundLevel"`, `"sound_level"`, `"SOUND_LEVEL"`,
`"Sound"` are accepted; anything else fails. -/
def SignalCode.parse (s : String) : Option SignalCode :=
  if s = "sound" || s = "SoundLevel" || s = "sound_level"
      || s = "SOUND_LEVEL" || s = "Sound"
  then some .sound
  else none

/-- Serialization of `SignalCode` per its serde rename attribute. -/
def SignalCode.serialize : SignalCode → String
  | .sound => "sound"

/-- The `code_str` computed by `Database::insert_reading` in `db.rs`. -/
def dbCodeStr : SignalCode → String
  | .sound => "sound"

/-- `SensorReading` from `domain/models.rs`. -/
structure SensorReading where
  patient_id : String
  device_id : String
  code : SignalCode
  value : F64
  unit : String
  ts : Int
deriving DecidableEq, Repr

/-- `SensorReading::validate` from `domain/models.rs`. -/
def SensorReading.validate (r : SensorReading) : Except String Unit :=
  if trimIsEmpty r.patient_id then .error "patient_id required"
  else if trimIsEmpty r.device_id then .error "device_id required"
  else if !r.value.isFinite then .error "value must be finite"
  else .ok ()

/-- `FhirCoding` from `fhir.rs`. -/
structure FhirCoding where
  system : String
  code : String
  display : String
deriving DecidableEq, Repr

/-- `FhirCode` from `fhir.rs`. -/
structure FhirCode where
  coding : List FhirCoding
  text : String
deriving DecidableEq, Repr

/-- `FhirQuantity` from `fhir.rs`. -/
structure FhirQuantity where
  value : F64
  unit : String
deriving DecidableEq, Repr

/-- `FhirReference` from `fhir.rs`. -/
structure FhirReference where
  reference : String
deriving DecidableEq, Repr

/-- `FhirObservation` from `fhir.rs`. -/
structure FhirObservation where
  resource_type : String
  id : String
  status : String
  code : FhirCode
  subject : FhirReference
  effective_date_time : Int
  value_quantity : FhirQuantity
deriving DecidableEq, Repr

/-- `FhirObservation::from_reading` from `fhir.rs`.  The `Uuid::new_v4()`
draw performed inside the Rust function is passed in as `freshId`. -/
def FhirObservation.from_reading (freshId : String) (r : SensorReading) : FhirObservation :=
  let cd : String × String :=
    match r.code with
    | .sound => ("sound", "Sound Level")
  { resource_type := "Observation"
    id := freshId
    status := "final"
    code := { coding := [{ system := "http://loinc.org", code := cd.1, display := cd.2 }]
              text := cd.2 }
    subject := { reference := "Patient/" ++ r.patient_id }
    effective_date_time := r.ts
    value_quantity := { value := r.value, unit := r.unit } }

/-- The closed status set from `FhirObservation::validate`. -/
def validStatuses : List String :=
  ["registered", "preliminary", "final", "amended", "corrected",
   "cancelled", "entered-in-error", "unknown"]

/-- The coding loop inside `FhirObservation::validate`: first error, if any. -/
def codingErr : List FhirCoding → Option String
  | [] => none
  | c :: rest =>
      if strIsEmpty c.system then some "Coding system is required"
      else if !(strStarts c.system "http://" || strStarts c.system "https://") then
        some ("Coding system must be a valid URI: " ++ c.system)
      else if strIsEmpty c.code then some "Coding code is required"
      else codingErr rest

/-- `FhirObservation::validate` from `fhir.rs` (checks in source order). -/
def FhirObservation.validate (o : FhirObservation) : Except String Unit :=
  if o.resource_type ≠ "Observation" then .error "resourceType must be Observation"
  else if strIsEmpty o.id then .error "Observation ID is required"
  else if !isUuidFormat o.id then .error "ID must be a valid UUID"
  else if !(validStatuses.contains o.status) then
    .error ("Invalid status " ++ o.status ++ ". Must be one of: "
      ++ String.intercalate ", " validStatuses)
  else if o.code.coding.isEmpty then .error "Observation must have at least one coding"
  else
    match codingErr o.code.coding with
    | some e => .error e
    | none =>
        if strIsEmpty o.subject.reference then .error "Subject reference is required"
        else if !strContains o.subject.reference '/' then
          .error "Subject reference must follow format: ResourceType/id"
        else if !o.value_quantity.value.isFinite then .error "Value must be a finite number"
        else if strIsEmpty o.value_quantity.unit then .error "Value unit is required"
        else .ok ()

/-- JWT `Claims` from `auth.rs` (the caller identity the core consumes). -/
structure Claims where
  sub : String
  exp : Int
  iat : Int
  role : String
  device_id : Option String
deriving DecidableEq, Repr

/-- `AppError` from `errors.rs`. -/
inductive AppError where
  | unauthorized
  | badRequest (msg : String)
  | internal
deriving DecidableEq, Repr

/-- `AuditAction` from `audit.rs`. -/
inductive AuditAction where
  | create
  | read
  | update
  | delete
  | login
  | logout
  | accessDenied
deriving DecidableEq, Repr

/-- `AuditLogEntry` from `audit.rs`.  The `metadata` field (a JSON value,
never set on the ingest path) is modelled as an optional string. -/
structure AuditLogEntry where
  user_id : Option String
  user_role : Option String
  action : AuditAction
  resource_type : String
  resource_id : Option String
  patient_id : Option String
  ip_address : Option String
  user_agent : Option String
  request_path : Option String
  status_code : Option Int
  error_message : Option String
  metadata : Option String
deriving DecidableEq, Repr

/-- `AuditLogEntry::new` from `audit.rs`. -/
def AuditLogEntry.new (action : AuditAction) (resource_type : String) : AuditLogEntry :=
  { user_id := none, user_role := none, action := action, resource_type := resource_type
    resource_id := none, patient_id := none, ip_address := none, user_agent := none
    request_path := none, status_code := none, error_message := none, metadata := none }

/-- `AuditLogEntry::with_user`. -/
def AuditLogEntry.with_user (e : AuditLogEntry) (uid urole : String) : AuditLogEntry :=
  { e with user_id := some uid, user_role := some urole }

/-- `AuditLogEntry::with_resource_id`. -/
def AuditLogEntry.with_resource_id (e : AuditLogEntry) (rid : String) : AuditLogEntry :=
  { e with resource_id := some rid }

/-- `AuditLogEntry::with_patient_id`. -/
def AuditLogEntry.with_patient_id (e : AuditLogEntry) (pid : String) : AuditLogEntry :=
  { e with patient_id := some pid }

/-- `AuditLogEntry::with_status_code`. -/
def AuditLogEntry.with_status_code (e : AuditLogEntry) (sc : Int) : AuditLogEntry :=
  { e with status_code := some sc }

/-- The audit entry built inside `AppState::push` for a successful durable
write with generated id `id`, caller `c`, reading `r`. -/
def auditEntryFor (id : String) (c : Claims) (r : SensorReading) : AuditLogEntry :=
  ((((AuditLogEntry.new .create "SensorReading").with_user c.sub c.role).with_resource_id
      id).with_patient_id r.patient_id).with_status_code 200

/-- `AppState` from `domain/store.rs`.  The `VecDeque` is a list with the
front (head) oldest and the back newest; the optional `Database` handle is
modelled by the flag `hasDb` (the database itself is external I/O whose
responses are passed in as oracle parameters). -/
structure AppState where
  readings : List SensorReading
  max : Nat
  hasDb : Bool
deriving DecidableEq, Repr

/-- `AppState::new_demo`. -/
def AppState.new_demo : AppState := { readings := [], max := 500, hasDb := false }

/-- `AppState::with_database`. -/
def AppState.with_database : AppState := { readings := [], max := 500, hasDb := true }

/-- The in-memory append at the end of `AppState::push`:
`if len >= max { pop_front() }; push_back(r)`. -/
def cacheAppend (max : Nat) (l : List SensorReading) (r : SensorReading) : List SensorReading :=
  (if max ≤ l.length then l.drop 1 else l) ++ [r]

/-- Observable side effects of one `AppState::push` call. -/
structure PushEffects where
  dbInsertAttempted : Bool
  auditAttempt : Option AuditLogEntry
  auditSucceeded : Option Bool
deriving DecidableEq, Repr

/-- Effects of a path on which no external write was attempted. -/
def noEffects : PushEffects :=
  { dbInsertAttempted := false, auditAttempt := none, auditSucceeded := none }

/-- Result of one `AppState::push` call: the new state, the observable
effects, and the returned `Result`. -/
structure PushOutcome where
  state : AppState
  effects : PushEffects
  result : Except AppError Unit
deriving Repr

/-- `AppState::push` from `domain/store.rs`.  `insertRes` is the Durable
Store's response to `insert_reading` (consulted only when a database handle
is present): `.ok id` for a successful insert returning `id`, `.error ()`
for a failed insert.  `auditOk` is whether the audit write (attempted only
after a successful insert with claims present) would succeed; its outcome is
logged and swallowed.  The in-memory append happens unconditionally and the
function always returns `Ok(())`. -/
def AppState.push (st : AppState) (r : SensorReading) (claims : Option Claims)
    (insertRes : Except Unit String) (auditOk : Bool) : PushOutcome :=
  let eff : PushEffects :=
    if st.hasDb then
      match insertRes, claims with
      | .ok id, some c =>
          { dbInsertAttempted := true
            auditAttempt := some (auditEntryFor id c r)
            auditSucceeded := some auditOk }
      | .ok _, none =>
          { dbInsertAttempted := true, auditAttempt := none, auditSucceeded := none }
      | .error _, _ =>
          { dbInsertAttempted := true, auditAttempt := none, auditSucceeded := none }
    else noEffects
  { state := { st with readings := cacheAppend st.max st.readings r }
    effects := eff
    result := .ok () }

/-- Conversion of a list of readings to observations in iteration order, one
fresh uuid (`ids i`) per `from_reading` call, as on the query paths. -/
def mapWithIds (ids : Nat → String) : Nat → List SensorReading → List FhirObservation
  | _, [] => []
  | i, r :: rs => FhirObservation.from_reading (ids i) r :: mapWithIds ids (i + 1) rs

/-- The most-recent-first readings the in-memory fallback of
`AppState::recent_observations` iterates over: `rev().take(limit.min(len))`. -/
def recentReadings (st : AppState) (limit : Nat) : List SensorReading :=
  (st.readings.reverse).take (min limit st.readings.length)

/-- The in-memory fallback branch of `AppState::recent_observations`.  Note
that the source applies no signal-code filter on this branch. -/
def fallbackRecent (st : AppState) (limit : Nat) (ids : Nat → String) : List FhirObservation :=
  mapWithIds ids 0 (recentReadings st limit)

/-- `AppState::recent_observations` from `domain/store.rs`.  `dbQueryRes` is
the Durable Store's response to `get_recent_readings limit codeFilter`
(consulted only when a database handle is present); `ids` supplies the
`Uuid::new_v4()` draws of the `from_reading` calls in order. -/
def AppState.recent_observations (st : AppState) (limit : Nat) (codeFilter : Option String)
    (dbQueryRes : Except Unit (List SensorReading)) (ids : Nat → String) :
    Except AppError (List FhirObservation) :=
  if st.hasDb then
    match dbQueryRes with
    | .ok rs => .ok (mapWithIds ids 0 rs)
    | .error _ => .ok (fallbackRecent st limit ids)
  else .ok (fallbackRecent st limit ids)

/-- Result of one ingest handler call: final state, the observation sent to
the WebSocket hub (if any), the push effects, and the HTTP-level result. -/
structure IngestOutcome where
  state : AppState
  published : Option FhirObservation
  effects : PushEffects
  result : Except AppError FhirObservation
deriving Repr

/-- The ingest handlers' control flow from `routes.rs` (`ingest_public` has
`claims = none`, the protected `ingest` has `claims = some c`): validate the
reading, convert, validate the observation, push (db + cache + audit), send
to the hub, return the observation.  `freshId` is the `Uuid::new_v4()` draw
inside `from_reading`; `insertRes` and `auditOk` are the external oracles
passed through to `push`. -/
def ingest (st : AppState) (r : SensorReading) (claims : Option Claims)
    (freshId : String) (insertRes : Except Unit String) (auditOk : Bool) : IngestOutcome :=
  match r.validate with
  | .error e => { state := st, published := none, effects := noEffects
                  result := .error (.badRequest e) }
  | .ok _ =>
      let obs := FhirObservation.from_reading freshId r
      match obs.validate with
      | .error e => { state := st, published := none, effects := noEffects
                      result := .error (.badRequest e) }
      | .ok _ =>
          let p := st.push r claims insertRes auditOk
          match p.result with
          | .error e => { state := p.state, published := none, effects := p.effects
                          result := .error e }
          | .ok _ => { state := p.state, published := some obs, effects := p.effects
                       result := .ok obs }

/-- Repeated in-memory appends (used to state the cache invariants). -/
def cachePushMany (max : Nat) (l : List SensorReading) (items : List SensorReading) :
    List SensorReading :=
  items.foldl (cacheAppend max) l

/-- The Durable Store's signal-code filter semantics (the `WHERE code = $1`
clause of `get_recent_readings` in `db.rs`): a reading matches an absent
filter always, a present filter exactly when its serialized code equals it. -/
def matchesFilter (f : Option String) (r : SensorReading) : Bool :=
  match f with
  | none => true
  | some s => dbCodeStr r.code = s

/-- Modelled from the spec: the fallback behavior the spec claims for
`recent` on durable-store failure — reading the Bounded Cache most-recent-first
with the same limit AND the same signal-code filter semantics as the Durable
Store's query.  Defined from the spec's words, for comparison with the
source's actual fallback (`fallbackRecent`, which applies no filter). -/
def fallbackRecentFiltered (st : AppState) (limit : Nat) (f : Option String)
    (ids : Nat → String) : List FhirObservation :=
  let fl := (st.readings.reverse).filter (matchesFilter f)
  mapWithIds ids 0 (fl.take (min limit fl.length))

/-! Concrete inputs used by witnesses and counterexamples. -/

/-- A structurally valid reading (the spec's end-to-end example values). -/
def rSound : SensorReading :=
  { patient_id := "p1", device_id := "d1", code := .sound
    value := .finite 200, unit := "raw", ts := 0 }

/-- A reading that passes `SensorReading::validate` but has an empty unit. -/
def rNoUnit : SensorReading :=
  { patient_id := "p1", device_id := "d1", code := .sound
    value := .finite 1, unit := "", ts := 0 }

/-- A reading with an empty patient id. -/
def rBadPatient : SensorReading :=
  { patient_id := "", device_id := "d1", code := .sound
    value := .finite 1, unit := "raw", ts := 0 }

/-- A well-formed uuid string (as produced by `Uuid::new_v4().to_string()`). -/
def uuidA : String := "123e4567-e89b-12d3-a456-426614174000"

/-- A second, distinct well-formed uuid string. -/
def uuidB : String := "00000000-0000-4000-8000-000000000000"

/-- A constant uuid supply for query paths. -/
def idsA : Nat → String := fun _ => uuidA

/-- A uuid supply distinct from `uuidA` everywhere. -/
def idsB : Nat → String := fun _ => uuidB

/-- A concrete caller identity. -/
def cAdmin : Claims :=
  { sub := "admin", exp := 0, iat := 0, role := "admin", device_id := none }

/-- A state holding exactly one cached reading, with a database configured. -/
def stOneDb : AppState := { readings := [rSound], max := 500, hasDb := true }

/-- 501 pairwise distinct readings (distinct timestamps). -/
def manyReadings : List SensorReading :=
  (List.range 501).map fun i =>
    { patient_id := "p1", device_id := "d1", code := .sound
      value := .finite 1, unit := "raw", ts := Int.ofNat i }

/-! Helper lemmas. -/

/-- A reading failing one of the three structural checks fails `validate`. -/
lemma validate_error_of_invalid (r : SensorReading)
    (h : trimIsEmpty r.patient_id = true ∨ trimIsEmpty r.device_id = true ∨
         r.value.isFinite = false) :
    ∃ e, r.validate = Except.error e := by
  cases h1 : trimIsEmpty r.patient_id with
  | true => exact ⟨"patient_id required", by simp [SensorReading.validate, h1]⟩
  | false =>
    cases h2 : trimIsEmpty r.device_id with
    | true => exact ⟨"device_id required", by simp [SensorReading.validate, h1, h2]⟩
    | false =>
      have h3 : r.value.isFinite = false := by
        rcases h with h | h | h
        · simp [h1] at h
        · simp [h2] at h
        · exact h
      exact ⟨"value must be finite", by simp [SensorReading.validate, h1, h2, h3]⟩

/-- A reading passing the three structural checks passes `validate`. -/
lemma reading_validate_ok (r : SensorReading)
    (h1 : trimIsEmpty r.patient_id = false) (h2 : trimIsEmpty r.device_id = false)
    (h3 : r.value.isFinite = true) : r.validate = .ok () := by
  simp [SensorReading.validate, h1, h2, h3]

/-- On validation failure, `ingest` returns the error untouched and does nothing. -/
lemma ingest_of_validate_error (st : AppState) (r : SensorReading) (claims : Option Claims)
    (freshId : String) (insertRes : Except Unit String) (auditOk : Bool) (e : String)
    (he : r.validate = .error e) :
    ingest st r claims freshId insertRes auditOk =
      { state := st, published := none, effects := noEffects
        result := .error (.badRequest e) } := by
  unfold ingest
  rw [he]

/-- A string in uuid format is nonempty. -/
lemma uuid_not_empty (s : String) (h : isUuidFormat s = true) : strIsEmpty s = false := by
  unfold isUuidFormat at h
  unfold strIsEmpty
  cases hd : s.data with
  | nil => rw [hd] at h; simp [uuidCharsOk] at h
  | cons a t => simp

/-- The subject reference built by `from_reading` is never empty. -/
lemma patient_ref_nonempty (p : String) : strIsEmpty ("Patient/" ++ p) = false := rfl

/-- The subject reference built by `from_reading` always contains a slash. -/
lemma patient_ref_has_slash (p : String) : strContains ("Patient/" ++ p) '/' = true := rfl

/-- For a finite-valued reading and a well-formed generated id, validating the
derived observation reduces to the unit check: every other check passes by
construction. -/
lemma obs_validate_reduces (freshId : String) (r : SensorReading)
    (h3 : r.value.isFinite = true) (h5 : isUuidFormat freshId = true) :
    (FhirObservation.from_reading freshId r).validate =
      if strIsEmpty r.unit then Except.error "Value unit is required" else Except.ok () := by
  obtain ⟨p, d, code, v, u, t⟩ := r
  cases code
  have hne := uuid_not_empty freshId h5
  simp only [FhirObservation.from_reading, FhirObservation.validate]
  simp [hne, h5, h3, patient_ref_nonempty, patient_ref_has_slash,
    validStatuses, codingErr, strIsEmpty, strStarts, startsList, isHexDigit]
  intro hcon
  simp [strIsEmpty, hcon] at hne

/-- A valid reading with nonempty unit yields an observation passing `validate`. -/
lemma obs_validate_ok (freshId : String) (r : SensorReading)
    (h3 : r.value.isFinite = true) (h4 : strIsEmpty r.unit = false)
    (h5 : isUuidFormat freshId = true) :
    (FhirObservation.from_reading freshId r).validate = .ok () := by
  rw [obs_validate_reduces freshId r h3 h5, if_neg]
  simp [h4]

/-- Full reduction of `ingest` on the success path. -/
lemma ingest_ok (st : AppState) (r : SensorReading) (claims : Option Claims)
    (freshId : String) (insertRes : Except Unit String) (auditOk : Bool)
    (h1 : trimIsEmpty r.patient_id = false) (h2 : trimIsEmpty r.device_id = false)
    (h3 : r.value.isFinite = true) (h4 : strIsEmpty r.unit = false)
    (h5 : isUuidFormat freshId = true) :
    ingest st r claims freshId insertRes auditOk =
      { state := (st.push r claims insertRes auditOk).state
        published := some (FhirObservation.from_reading freshId r)
        effects := (st.push r claims insertRes auditOk).effects
        result := .ok (FhirObservation.from_reading freshId r) } := by
  unfold ingest
  simp only [reading_validate_ok r h1 h2 h3, obs_validate_ok freshId r h3 h4 h5]
  rfl

/-- With a failing durable query (or no database), `recent_observations`
returns the in-memory fallback. -/
lemma recent_error_fallback (st : AppState) (limit : Nat) (cf : Option String)
    (ids : Nat → String) :
    st.recent_observations limit cf (.error ()) ids
      = .ok (fallbackRecent st limit ids) := by
  cases h : st.hasDb <;> simp [AppState.recent_observations, h]

/-- The head of the fallback list is the newest cached reading, converted with
the first uuid draw. -/
lemma fallback_head (st : AppState) (limit : Nat) (ids : Nat → String)
    (hlim : 1 ≤ limit) (r : SensorReading) (old : List SensorReading)
    (h : st.readings = old ++ [r]) :
    (fallbackRecent st limit ids).head? = some (FhirObservation.from_reading (ids 0) r) := by
  unfold fallbackRecent recentReadings
  rw [h, List.reverse_append]
  simp only [List.reverse_cons, List.reverse_nil, List.nil_append, List.singleton_append,
    List.length_append, List.length_cons, List.length_nil]
  have hm : min limit (old.length + 1) = (min limit (old.length + 1) - 1) + 1 := by omega
  rw [hm, List.take_succ_cons]
  rfl

/-- One in-memory append preserves the capacity bound. -/
lemma cacheAppend_length_le (max : Nat) (hmax : 1 ≤ max) (l : List SensorReading)
    (hl : l.length ≤ max) (r : SensorReading) :
    (cacheAppend max l r).length ≤ max := by
  unfold cacheAppend
  split
  · next hge => simp [List.length_drop]; omega
  · next hlt => simp; omega

/-- Repeated appends into a cache within capacity keep exactly the newest
`max` items: the result is the suffix of the full insertion sequence. -/
lemma cachePushMany_eq_drop (max : Nat) (hmax : 1 ≤ max) :
    ∀ (items l : List SensorReading), l.length ≤ max →
      cachePushMany max l items = (l ++ items).drop (l.length + items.length - max) := by
  intro items
  induction items with
  | nil =>
      intro l hl
      simp only [cachePushMany, List.foldl_nil, List.append_nil, List.length_nil]
      rw [Nat.sub_eq_zero_of_le (by omega), List.drop_zero]
  | cons x xs ih =>
      intro l hl
      have step : cachePushMany max l (x :: xs) = cachePushMany max (cacheAppend max l x) xs := rfl
      rw [step, ih (cacheAppend max l x) (cacheAppend_length_le max hmax l hl x)]
      unfold cacheAppend
      split
      · next hge =>
          cases l with
          | nil => simp at hge; omega
          | cons a t =>
              have hlt : t.length + 1 = max := by
                simp only [List.length_cons] at hl hge
                omega
              have e1 : ((a :: t).drop 1 ++ [x]).length + xs.length - max = xs.length := by
                simp; omega
              have e2 : (a :: t).length + (x :: xs).length - max = xs.length + 1 := by
                simp; omega
              rw [e1, e2]
              show ((t ++ [x]) ++ xs).drop xs.length = ((a :: t) ++ x :: xs).drop (xs.length + 1)
              rw [List.cons_append, List.drop_succ_cons, List.append_assoc, List.singleton_append]
      · next hge =>
          rw [List.append_assoc, List.singleton_append]
          congr 1
          simp
          omega

/-- The ingest result never depends on the storage response, for any input. -/
lemma ingest_result_indep (st : AppState) (r : SensorReading) (claims : Option Claims)
    (freshId : String) (auditOk : Bool) (res1 res2 : Except Unit String) :
    (ingest st r claims freshId res1 auditOk).result
      = (ingest st r claims freshId res2 auditOk).result := by
  unfold ingest
  cases hv : r.validate with
  | error e => rfl
  | ok a =>
      cases ho : (FhirObservation.from_reading freshId r).validate with
      | error e => simp only [ho]
      | ok b => simp only [ho, AppState.push]

/-! Claim theorems. -/

/-- Claim C1, as stated, is false on the code: the reading `rNoUnit` has a
non-empty subject id, a non-empty device id and a finite value, yet `ingest`
fails with the unit validation error, because `FhirObservation::validate`
requires a non-empty unit that `SensorReading::validate` does not check. -/
theorem ingest_valid_claim_fails_on_empty_unit :
    trimIsEmpty rNoUnit.patient_id = false
    ∧ trimIsEmpty rNoUnit.device_id = false
    ∧ rNoUnit.value.isFinite = true
    ∧ isUuidFormat uuidA = true
    ∧ (ingest AppState.new_demo rNoUnit none uuidA (.error ()) true).result
        = .error (.badRequest "Value unit is required") :=
  ⟨rfl, rfl, rfl, by decide, rfl⟩

/-- Claim C1 (amended): for every Reading whose subject id and device id are
non-empty after trimming, whose value is finite, and whose unit string is
non-empty, ingest (with a well-formed generated identifier) succeeds and
returns a Canonical Observation whose subject reference equals
`"Patient/" ++ subjectId` and whose valueQuantity value equals the input
Reading's value. -/
theorem ingest_valid_reading_succeeds (st : AppState) (r : SensorReading)
    (claims : Option Claims) (freshId : String) (insertRes : Except Unit String)
    (auditOk : Bool)
    (h1 : trimIsEmpty r.patient_id = false) (h2 : trimIsEmpty r.device_id = false)
    (h3 : r.value.isFinite = true) (h4 : strIsEmpty r.unit = false)
    (h5 : isUuidFormat freshId = true) :
    (ingest st r claims freshId insertRes auditOk).result
        = .ok (FhirObservation.from_reading freshId r)
    ∧ (FhirObservation.from_reading freshId r).subject.reference
        = "Patient/" ++ r.patient_id
    ∧ (FhirObservation.from_reading freshId r).value_quantity.value = r.value := by
  refine ⟨?_, rfl, rfl⟩
  rw [ingest_ok st r claims freshId insertRes auditOk h1 h2 h3 h4 h5]

/-- Witness for the amended C1 theorem at the concrete reading `rSound`. -/
theorem ingest_valid_reading_succeeds_witness :
    (ingest AppState.new_demo rSound none uuidA (.error ()) true).result
        = .ok (FhirObservation.from_reading uuidA rSound)
    ∧ (FhirObservation.from_reading uuidA rSound).subject.reference
        = "Patient/" ++ rSound.patient_id
    ∧ (FhirObservation.from_reading uuidA rSound).value_quantity.value = rSound.value :=
  ingest_valid_reading_succeeds AppState.new_demo rSound none uuidA (.error ()) true
    (by decide) (by decide) (by decide) (by decide) (by decide)

/-- Claim C2: a Reading with an empty-after-trim subject id, an empty device
id, or a non-finite value makes ingest fail with a client-input (BadRequest)
failure; the state (hence the Bounded Cache) is unchanged, no durable insert
or audit write is attempted, and nothing is published. -/
theorem ingest_invalid_rejected (st : AppState) (r : SensorReading)
    (claims : Option Claims) (freshId : String) (insertRes : Except Unit String)
    (auditOk : Bool)
    (h : trimIsEmpty r.patient_id = true ∨ trimIsEmpty r.device_id = true ∨
         r.value.isFinite = false) :
    ∃ msg, (ingest st r claims freshId insertRes auditOk).result
        = .error (.badRequest msg)
      ∧ (ingest st r claims freshId insertRes auditOk).state = st
      ∧ (ingest st r claims freshId insertRes auditOk).published = none
      ∧ (ingest st r claims freshId insertRes auditOk).effects = noEffects := by
  obtain ⟨e, he⟩ := validate_error_of_invalid r h
  refine ⟨e, ?_, ?_, ?_, ?_⟩ <;>
    rw [ingest_of_validate_error st r claims freshId insertRes auditOk e he]

/-- Witness for C2 at a concrete reading with an empty patient id. -/
theorem ingest_invalid_rejected_witness :
    ∃ msg, (ingest AppState.new_demo rBadPatient none uuidA (.error ()) true).result
        = .error (.badRequest msg)
      ∧ (ingest AppState.new_demo rBadPatient none uuidA (.error ()) true).state
          = AppState.new_demo
      ∧ (ingest AppState.new_demo rBadPatient none uuidA (.error ()) true).published = none
      ∧ (ingest AppState.new_demo rBadPatient none uuidA (.error ()) true).effects
          = noEffects :=
  ingest_invalid_rejected AppState.new_demo rBadPatient none uuidA (.error ()) true
    (Or.inl (by decide))

/-- Claim C9: the signal-code parse function accepts exactly the canonical
spelling "sound" and the legacy spellings "SoundLevel", "sound_level",
"SOUND_LEVEL", "Sound", all mapping to the one enumeration member; any other
spelling fails to parse; and serialization (serde and the database insert)
always produces the canonical spelling "sound". -/
theorem signal_code_parse_serialize :
    (∀ s : String, SignalCode.parse s = some SignalCode.sound ↔
      (s = "sound" ∨ s = "SoundLevel" ∨ s = "sound_level"
        ∨ s = "SOUND_LEVEL" ∨ s = "Sound"))
    ∧ (∀ s : String,
        (s ≠ "sound" ∧ s ≠ "SoundLevel" ∧ s ≠ "sound_level"
          ∧ s ≠ "SOUND_LEVEL" ∧ s ≠ "Sound") → SignalCode.parse s = none)
    ∧ SignalCode.serialize SignalCode.sound = "sound"
    ∧ dbCodeStr SignalCode.sound = "sound" := by
  refine ⟨?_, ?_, rfl, rfl⟩
  · intro s
    constructor
    · intro h
      by_contra hc
      push_neg at hc
      obtain ⟨n1, n2, n3, n4, n5⟩ := hc
      simp [SignalCode.parse, n1, n2, n3, n4, n5] at h
    · intro h
      rcases h with h | h | h | h | h <;> subst h <;> rfl
  · intro s ⟨n1, n2, n3, n4, n5⟩
    simp [SignalCode.parse, n1, n2, n3, n4, n5]

/-- Witness for C9 at concrete spellings. -/
theorem signal_code_parse_serialize_witness :
    SignalCode.parse "Sound" = some SignalCode.sound ∧ SignalCode.parse "xyz" = none :=
  ⟨(signal_code_parse_serialize.1 "Sound").mpr (by tauto),
   signal_code_parse_serialize.2.1 "xyz" (by simp)⟩

/-- Claim C10: a Reading with non-empty ids and finite value but an empty
unit string passes `SensorReading::validate`, yet the derived observation
fails `FhirObservation::validate` (unit is required), so ingest returns a
client-input failure and nothing is stored, cached, or published. -/
theorem empty_unit_rejected (st : AppState) (r : SensorReading) (claims : Option Claims)
    (freshId : String) (insertRes : Except Unit String) (auditOk : Bool)
    (h1 : trimIsEmpty r.patient_id = false) (h2 : trimIsEmpty r.device_id = false)
    (h3 : r.value.isFinite = true) (h4 : strIsEmpty r.unit = true)
    (h5 : isUuidFormat freshId = true) :
    r.validate = .ok ()
    ∧ (FhirObservation.from_reading freshId r).validate = .error "Value unit is required"
    ∧ (ingest st r claims freshId insertRes auditOk).result
        = .error (.badRequest "Value unit is required")
    ∧ (ingest st r claims freshId insertRes auditOk).state = st
    ∧ (ingest st r claims freshId insertRes auditOk).published = none
    ∧ (ingest st r claims freshId insertRes auditOk).effects = noEffects := by
  have hv := reading_validate_ok r h1 h2 h3
  have ho : (FhirObservation.from_reading freshId r).validate
      = .error "Value unit is required" := by
    rw [obs_validate_reduces freshId r h3 h5]
    simp [h4]
  have hi : ingest st r claims freshId insertRes auditOk =
      { state := st, published := none, effects := noEffects
        result := .error (.badRequest "Value unit is required") } := by
    unfold ingest
    simp only [hv, ho]
  refine ⟨hv, ho, ?_, ?_, ?_, ?_⟩ <;> rw [hi]

/-- Witness for C10 at the concrete reading `rNoUnit`. -/
theorem empty_unit_rejected_witness :
    rNoUnit.validate = .ok ()
    ∧ (FhirObservation.from_reading uuidA rNoUnit).validate
        = .error "Value unit is required"
    ∧ (ingest AppState.new_demo rNoUnit none uuidA (.ok "id1") true).result
        = .error (.badRequest "Value unit is required")
    ∧ (ingest AppState.new_demo rNoUnit none uuidA (.ok "id1") true).state
        = AppState.new_demo
    ∧ (ingest AppState.new_demo rNoUnit none uuidA (.ok "id1") true).published = none
    ∧ (ingest AppState.new_demo rNoUnit none uuidA (.ok "id1") true).effects = noEffects :=
  empty_unit_rejected AppState.new_demo rNoUnit none uuidA (.ok "id1") true
    (by decide) (by decide) (by decide) (by decide) (by decide)

/-- Claim C3: a failing durable insert (or an absent store) never blocks
ingestion: push still appends the Reading to the cache and returns Ok, the
ingest result does not depend on the storage response at all, ingest succeeds
with the failed insert, and a subsequent recent() call whose durable query
also fails returns the just-ingested reading (newest first) from the cache. -/
theorem storage_failure_degrades (st : AppState) (r : SensorReading)
    (claims : Option Claims) (freshId : String) (auditOk : Bool)
    (limit : Nat) (cf : Option String) (ids : Nat → String)
    (h1 : trimIsEmpty r.patient_id = false) (h2 : trimIsEmpty r.device_id = false)
    (h3 : r.value.isFinite = true) (h4 : strIsEmpty r.unit = false)
    (h5 : isUuidFormat freshId = true) (hlim : 1 ≤ limit) :
    (st.push r claims (.error ()) auditOk).result = .ok ()
    ∧ (st.push r claims (.error ()) auditOk).state.readings
        = cacheAppend st.max st.readings r
    ∧ (∀ (r2 : SensorReading) (res1 res2 : Except Unit String),
        (ingest st r2 claims freshId res1 auditOk).result
          = (ingest st r2 claims freshId res2 auditOk).result)
    ∧ (ingest st r claims freshId (.error ()) auditOk).result
        = .ok (FhirObservation.from_reading freshId r)
    ∧ ∃ l, ((ingest st r claims freshId (.error ()) auditOk).state).recent_observations
            limit cf (.error ()) ids = .ok l
        ∧ l.head? = some (FhirObservation.from_reading (ids 0) r) := by
  refine ⟨rfl, rfl, ?_, ?_, ?_⟩
  · intro r2 res1 res2
    exact ingest_result_indep st r2 claims freshId auditOk res1 res2
  · rw [ingest_ok st r claims freshId (.error ()) auditOk h1 h2 h3 h4 h5]
  · refine ⟨fallbackRecent ((ingest st r claims freshId (.error ()) auditOk).state) limit ids,
      recent_error_fallback _ limit cf ids, ?_⟩
    apply fallback_head _ limit ids hlim r
      (if st.max ≤ st.readings.length then st.readings.drop 1 else st.readings)
    rw [ingest_ok st r claims freshId (.error ()) auditOk h1 h2 h3 h4 h5]
    rfl

/-- Witness for C3 at the concrete reading `rSound` in the demo state. -/
theorem storage_failure_degrades_witness :
    (AppState.new_demo.push rSound none (.error ()) true).result = .ok ()
    ∧ (AppState.new_demo.push rSound none (.error ()) true).state.readings
        = cacheAppend AppState.new_demo.max AppState.new_demo.readings rSound
    ∧ (∀ (r2 : SensorReading) (res1 res2 : Except Unit String),
        (ingest AppState.new_demo r2 none uuidA res1 true).result
          = (ingest AppState.new_demo r2 none uuidA res2 true).result)
    ∧ (ingest AppState.new_demo rSound none uuidA (.error ()) true).result
        = .ok (FhirObservation.from_reading uuidA rSound)
    ∧ ∃ l, ((ingest AppState.new_demo rSound none uuidA (.error ()) true).state).recent_observations
            10 none (.error ()) idsB = .ok l
        ∧ l.head? = some (FhirObservation.from_reading (idsB 0) rSound) :=
  storage_failure_degrades AppState.new_demo rSound none uuidA true 10 none idsB
    (by decide) (by decide) (by decide) (by decide) (by decide) (by omega)

/-- Claim C4: the cache never exceeds its fixed capacity 500 under any
sequence of appends, and eviction is strict FIFO: appending 500 + k items
(k at least 1) into an empty cache leaves exactly the last 500 items, reading
back the most recent 500 returns them newest first, and for pairwise distinct
items the k oldest are absent from that read-back. -/
theorem cache_bounded_fifo (items : List SensorReading) (k : Nat)
    (hk : 1 ≤ k) (hlen : items.length = 500 + k) :
    (∀ js : List SensorReading, (cachePushMany 500 [] js).length ≤ 500)
    ∧ cachePushMany 500 [] items = items.drop k
    ∧ recentReadings
        { readings := cachePushMany 500 [] items, max := 500, hasDb := false } 500
        = (items.drop k).reverse
    ∧ (items.Nodup → ∀ r ∈ items.take k,
        r ∉ recentReadings
          { readings := cachePushMany 500 [] items, max := 500, hasDb := false } 500) := by
  have hb := cachePushMany_eq_drop 500 (by omega)
  have h1 : ∀ js : List SensorReading, (cachePushMany 500 [] js).length ≤ 500 := by
    intro js
    rw [hb js [] (by simp), List.length_drop]
    simp
    omega
  have h2 : cachePushMany 500 [] items = items.drop k := by
    rw [hb items [] (by simp)]
    simp [hlen]
  have hdlen : (items.drop k).length = 500 := by
    rw [List.length_drop, hlen]
    omega
  have h3 : recentReadings { readings := items.drop k, max := 500, hasDb := false } 500
      = (items.drop k).reverse := by
    show ((items.drop k).reverse).take (min 500 (items.drop k).length)
      = (items.drop k).reverse
    rw [hdlen, Nat.min_self]
    apply List.take_of_length_le
    rw [List.length_reverse, hdlen]
  have h4 : items.Nodup → ∀ r ∈ items.take k, r ∉ (items.drop k).reverse := by
    intro hnd r hr hmem
    rw [List.mem_reverse] at hmem
    have hnd' : (items.take k ++ items.drop k).Nodup := by
      rw [List.take_append_drop]
      exact hnd
    exact (List.nodup_append.mp hnd').2.2 hr hmem
  refine ⟨h1, h2, ?_, ?_⟩
  · rw [h2]
    exact h3
  · rw [h2]
    intro hnd r hr
    rw [h3]
    exact h4 hnd r hr

/-- Witness for C4 with 501 pairwise distinct readings (k = 1). -/
theorem cache_bounded_fifo_witness :
    (∀ js : List SensorReading, (cachePushMany 500 [] js).length ≤ 500)
    ∧ cachePushMany 500 [] manyReadings = manyReadings.drop 1
    ∧ recentReadings
        { readings := cachePushMany 500 [] manyReadings, max := 500, hasDb := false } 500
        = (manyReadings.drop 1).reverse
    ∧ (manyReadings.Nodup → ∀ r ∈ manyReadings.take 1,
        r ∉ recentReadings
          { readings := cachePushMany 500 [] manyReadings, max := 500, hasDb := false } 500) :=
  cache_bounded_fifo manyReadings 1 (by omega)
    (by unfold manyReadings; rw [List.length_map, List.length_range])

/-- Claim C5, as stated, is false on the code: with one cached reading
(serialized code "sound"), a configured database, a failing durable query and
the filter "xyz", the fallback returns the cached reading even though the
Durable Store's filter semantics would return nothing — the in-memory
fallback ignores the signal-code filter. -/
theorem recent_fallback_ignores_filter :
    AppState.recent_observations stOneDb 10 (some "xyz") (.error ()) idsA
        = .ok [FhirObservation.from_reading uuidA rSound]
    ∧ fallbackRecentFiltered stOneDb 10 (some "xyz") idsA = []
    ∧ dbCodeStr rSound.code ≠ "xyz"
    ∧ AppState.recent_observations stOneDb 10 (some "xyz") (.error ()) idsA
        ≠ .ok (fallbackRecentFiltered stOneDb 10 (some "xyz") idsA) := by
  refine ⟨rfl, rfl, by decide, ?_⟩
  intro h
  rw [show fallbackRecentFiltered stOneDb 10 (some "xyz") idsA
        = ([] : List FhirObservation) from rfl] at h
  rw [show AppState.recent_observations stOneDb 10 (some "xyz") (Except.error ()) idsA
        = Except.ok [FhirObservation.from_reading uuidA rSound] from rfl] at h
  exact List.cons_ne_nil _ _ (Except.ok.inj h)

/-- Claim C5 (amended): recent prefers the Durable Store (a successful
durable query returns exactly the store's rows, converted in order); on a
failing durable query, or with no store configured, it falls back to the
Bounded Cache with the same limit, most-recent-first, but without applying
the signal-code filter; and the call itself never fails. -/
theorem recent_degrades_to_cache (st : AppState) (limit : Nat) (cf : Option String)
    (dbQueryRes : Except Unit (List SensorReading)) (ids : Nat → String) :
    (∃ l, st.recent_observations limit cf dbQueryRes ids = .ok l)
    ∧ (st.hasDb = true → ∀ rs, st.recent_observations limit cf (.ok rs) ids
        = .ok (mapWithIds ids 0 rs))
    ∧ st.recent_observations limit cf (.error ()) ids
        = .ok (fallbackRecent st limit ids)
    ∧ fallbackRecent st limit ids
        = mapWithIds ids 0 ((st.readings.reverse).take (min limit st.readings.length)) := by
  refine ⟨?_, ?_, recent_error_fallback st limit cf ids, rfl⟩
  · cases hdb : st.hasDb
    · exact ⟨fallbackRecent st limit ids, by simp [AppState.recent_observations, hdb]⟩
    · cases dbQueryRes with
      | error e =>
          exact ⟨fallbackRecent st limit ids, by simp [AppState.recent_observations, hdb]⟩
      | ok rs =>
          exact ⟨mapWithIds ids 0 rs, by simp [AppState.recent_observations, hdb]⟩
  · intro hdb rs
    simp [AppState.recent_observations, hdb]

/-- Witness for the amended C5 theorem at a concrete state and query. -/
theorem recent_degrades_to_cache_witness :
    (∃ l, AppState.recent_observations stOneDb 10 none (.error ()) idsA = .ok l)
    ∧ (stOneDb.hasDb = true → ∀ rs, AppState.recent_observations stOneDb 10 none (.ok rs) idsA
        = .ok (mapWithIds idsA 0 rs))
    ∧ AppState.recent_observations stOneDb 10 none (.error ()) idsA
        = .ok (fallbackRecent stOneDb 10 idsA)
    ∧ fallbackRecent stOneDb 10 idsA
        = mapWithIds idsA 0
            ((stOneDb.readings.reverse).take (min 10 stOneDb.readings.length)) :=
  recent_degrades_to_cache stOneDb 10 none (.error ()) idsA

/-- Claim C6: a failing audit write is swallowed: for a structurally valid
Reading ingested with a caller identity, ingest still succeeds, and the
resulting state, the cache append, the durable-insert attempt and the audit
attempt are identical to the run in which the audit write succeeds. -/
theorem audit_failure_swallowed (st : AppState) (r : SensorReading) (c : Claims)
    (freshId : String) (insertRes : Except Unit String)
    (h1 : trimIsEmpty r.patient_id = false) (h2 : trimIsEmpty r.device_id = false)
    (h3 : r.value.isFinite = true) (h4 : strIsEmpty r.unit = false)
    (h5 : isUuidFormat freshId = true) :
    (ingest st r (some c) freshId insertRes false).result
        = .ok (FhirObservation.from_reading freshId r)
    ∧ (ingest st r (some c) freshId insertRes false).state
        = (ingest st r (some c) freshId insertRes true).state
    ∧ (ingest st r (some c) freshId insertRes false).state.readings
        = cacheAppend st.max st.readings r
    ∧ (ingest st r (some c) freshId insertRes false).effects.dbInsertAttempted
        = (ingest st r (some c) freshId insertRes true).effects.dbInsertAttempted
    ∧ (ingest st r (some c) freshId insertRes false).effects.auditAttempt
        = (ingest st r (some c) freshId insertRes true).effects.auditAttempt := by
  rw [ingest_ok st r (some c) freshId insertRes false h1 h2 h3 h4 h5,
      ingest_ok st r (some c) freshId insertRes true h1 h2 h3 h4 h5]
  refine ⟨rfl, rfl, rfl, ?_, ?_⟩ <;>
    cases hdb : st.hasDb <;> cases insertRes <;> simp [AppState.push, hdb, noEffects]

/-- Witness for C6 at the concrete reading `rSound` with a concrete caller. -/
theorem audit_failure_swallowed_witness :
    (ingest AppState.with_database rSound (some cAdmin) uuidA (.ok "id1") false).result
        = .ok (FhirObservation.from_reading uuidA rSound)
    ∧ (ingest AppState.with_database rSound (some cAdmin) uuidA (.ok "id1") false).state
        = (ingest AppState.with_database rSound (some cAdmin) uuidA (.ok "id1") true).state
    ∧ (ingest AppState.with_database rSound (some cAdmin) uuidA (.ok "id1") false).state.readings
        = cacheAppend AppState.with_database.max AppState.with_database.readings rSound
    ∧ (ingest AppState.with_database rSound (some cAdmin) uuidA (.ok "id1") false).effects.dbInsertAttempted
        = (ingest AppState.with_database rSound (some cAdmin) uuidA (.ok "id1") true).effects.dbInsertAttempted
    ∧ (ingest AppState.with_database rSound (some cAdmin) uuidA (.ok "id1") false).effects.auditAttempt
        = (ingest AppState.with_database rSound (some cAdmin) uuidA (.ok "id1") true).effects.auditAttempt :=
  audit_failure_swallowed AppState.with_database rSound cAdmin uuidA (.ok "id1")
    (by decide) (by decide) (by decide) (by decide) (by decide)

/-- Claim C7: an audit record is attempted by push exactly when a database is
configured, the durable insert succeeded, and a caller identity was supplied,
and that record is a "create" on resource type "SensorReading" carrying the
insert's generated id, the caller's id and role, the Reading's subject id,
and status code 200. -/
theorem audit_attempt_characterization (st : AppState) (r : SensorReading)
    (claims : Option Claims) (insertRes : Except Unit String) (auditOk : Bool) :
    ((st.push r claims insertRes auditOk).effects.auditAttempt =
      match st.hasDb, insertRes, claims with
      | true, .ok id, some c => some (auditEntryFor id c r)
      | _, _, _ => none)
    ∧ ∀ (id : String) (c : Claims),
        auditEntryFor id c r =
          { user_id := some c.sub, user_role := some c.role, action := .create
            resource_type := "SensorReading", resource_id := some id
            patient_id := some r.patient_id, ip_address := none, user_agent := none
            request_path := none, status_code := some 200, error_message := none
            metadata := none } := by
  constructor
  · cases hdb : st.hasDb <;> cases insertRes <;> cases claims <;>
      simp [AppState.push, hdb, noEffects]
  · intro id c
    rfl

/-- Claim C8, as stated, is false on the code: ingesting `rSound` (generated
id `uuidA`) and then querying (next generated id `uuidB`, durable query
failing) returns an observation for the same reading whose identifier is
`uuidB`, not the ingest-time identifier `uuidA`: queries re-derive the
observation with a fresh identifier. -/
theorem query_regenerates_identifier :
    (ingest AppState.new_demo rSound none uuidA (.error ()) true).result
        = .ok (FhirObservation.from_reading uuidA rSound)
    ∧ (ingest AppState.new_demo rSound none uuidA (.error ()) true).published
        = some (FhirObservation.from_reading uuidA rSound)
    ∧ AppState.recent_observations
        ((ingest AppState.new_demo rSound none uuidA (.error ()) true).state) 10 none
        (.error ()) idsB
        = .ok [FhirObservation.from_reading uuidB rSound]
    ∧ (FhirObservation.from_reading uuidA rSound).id = uuidA
    ∧ (FhirObservation.from_reading uuidB rSound).id = uuidB
    ∧ uuidB ≠ uuidA :=
  ⟨rfl, rfl, rfl, rfl, rfl, by decide⟩

/-- Claim C8 (amended): on the ingest path the Canonical Observation with its
freshly generated identifier is created once and never mutated — the returned
and the published observation are the same value; a later query re-derives
the observation from the stored Reading under a fresh identifier, preserving
every field except the identifier. -/
theorem ingest_obs_created_once (st : AppState) (r : SensorReading)
    (claims : Option Claims) (freshId : String) (insertRes : Except Unit String)
    (auditOk : Bool)
    (h1 : trimIsEmpty r.patient_id = false) (h2 : trimIsEmpty r.device_id = false)
    (h3 : r.value.isFinite = true) (h4 : strIsEmpty r.unit = false)
    (h5 : isUuidFormat freshId = true) :
    (ingest st r claims freshId insertRes auditOk).result
        = .ok (FhirObservation.from_reading freshId r)
    ∧ (ingest st r claims freshId insertRes auditOk).published
        = some (FhirObservation.from_reading freshId r)
    ∧ (∀ qid : String,
        (FhirObservation.from_reading qid r).id = qid
        ∧ (FhirObservation.from_reading qid r).resource_type
            = (FhirObservation.from_reading freshId r).resource_type
        ∧ (FhirObservation.from_reading qid r).status
            = (FhirObservation.from_reading freshId r).status
        ∧ (FhirObservation.from_reading qid r).code
            = (FhirObservation.from_reading freshId r).code
        ∧ (FhirObservation.from_reading qid r).subject
            = (FhirObservation.from_reading freshId r).subject
        ∧ (FhirObservation.from_reading qid r).effective_date_time
            = (FhirObservation.from_reading freshId r).effective_date_time
        ∧ (FhirObservation.from_reading qid r).value_quantity
            = (FhirObservation.from_reading freshId r).value_quantity) := by
  rw [ingest_ok st r claims freshId insertRes auditOk h1 h2 h3 h4 h5]
  exact ⟨rfl, rfl, fun qid => ⟨rfl, rfl, rfl, rfl, rfl, rfl, rfl⟩⟩

/-- Witness for the amended C8 theorem at the concrete reading `rSound`. -/
theorem ingest_obs_created_once_witness :
    (ingest AppState.new_demo rSound none uuidA (.error ()) false).result
        = .ok (FhirObservation.from_reading uuidA rSound)
    ∧ (ingest AppState.new_demo rSound none uuidA (.error ()) false).published
        = some (FhirObservation.from_reading uuidA rSound)
    ∧ (∀ qid : String,
        (FhirObservation.from_reading qid rSound).id = qid
        ∧ (FhirObservation.from_reading qid rSound).resource_type
            = (FhirObservation.from_reading uuidA rSound).resource_type
        ∧ (FhirObservation.from_reading qid rSound).status
            = (FhirObservation.from_reading uuidA rSound).status
        ∧ (FhirObservation.from_reading qid rSound).code
            = (FhirObservation.from_reading uuidA rSound).code
        ∧ (FhirObservation.from_reading qid rSound).subject
            = (FhirObservation.from_reading uuidA rSound).subject
        ∧ (FhirObservation.from_reading qid rSound).effective_date_time
            = (FhirObservation.from_reading uuidA rSound).effective_date_time
        ∧ (FhirObservation.from_reading qid rSound).value_quantity
            = (FhirObservation.from_reading uuidA rSound).value_quantity) :=
  ingest_obs_created_once AppState.new_demo rSound none uuidA (.error ()) false
    (by decide) (by decide) (by decide) (by decide) (by decide)

end SoundSense
